import Mathlib

/-!
Verification of the Janseva-Tracker priority-scoring and duplicate-detection
core: `calculatePriority`, `fallbackCalculatePriority`, `cosineSimilarity`
and `detectDuplicate` from the AI service module, together with the
complaint routes (`POST /api/complaints` and `GET /api/complaints/priority`).

Modelling conventions (shallow embedding of the JavaScript source):

* The rule-based priority scorer performs only rational arithmetic, so it is
  embedded over `ℚ` (over `ℤ` for the rounded final score).  The
  cosine-similarity pipeline takes real square roots, so it is embedded over
  `ℝ`; floating-point rounding error is not modelled.
* `Math.round x` is `⌊x + 1/2⌋` (JS rounds halves towards positive infinity).
* A JS value that may be `undefined` is an `Option`; the JS idiom `x || d`
  (which replaces `undefined`, the number `0` and the empty string by the
  default) is `jsOr` / `jsOrString`.
* A JS division `0 / 0` yields `NaN`, and `cosineSimilarity` can divide by a
  zero norm product.  The embedding returns `Option ℝ` with `none` standing
  for `NaN` (whenever the denominator is zero, the numerator provably is as
  well, so no infinite quotients arise).  Every JS comparison against `NaN`
  is false; the fold in `detectDuplicate` reflects this by keeping its
  current best match whenever a similarity is `NaN`.
* The database count `Complaint.countDocuments` awaited inside
  `calculatePriority` is the only operation of its `try` block that can
  throw; it enters the embedding as an `Except Unit ℕ` input, `.error ()`
  selecting the `catch` branch of the source.
* Mongo document ids are opaque, always-truthy objects; they are modelled as
  bare `ℕ` tags.
-/

namespace Janseva

/-- JS `Math.round` on exact rationals: round half towards plus infinity. -/
def jsRound (q : ℚ) : ℤ := ⌊q + 1 / 2⌋

/-- JS `Math.round` on reals (used where similarities are rescaled). -/
noncomputable def jsRoundR (x : ℝ) : ℤ := ⌊x + 1 / 2⌋

/-- JS `x || d` for a possibly-undefined number: `undefined` and `0` are falsy. -/
def jsOr (x : Option ℚ) (d : ℚ) : ℚ :=
  match x with
  | none => d
  | some v => if v = 0 then d else v

/-- JS `x || d` for a possibly-undefined string: `undefined` and `""` are falsy. -/
def jsOrString (x : Option String) (d : String) : String :=
  match x with
  | none => d
  | some s => if s = "" then d else s

/-- JS `s.includes(sub)`: substring containment. -/
def containsSub (s sub : String) : Bool := decide (sub.data <:+: s.data)

/-- JS `s.toLowerCase()` (ASCII), defined on the character list so that it
computes by kernel reduction. -/
def jsToLower (s : String) : String := ⟨s.data.map Char.toLower⟩

/-- Rendering of the possibly-undefined category inside a JS template string
(`undefined` prints as the word `undefined`). -/
def categoryText (category : Option String) : String :=
  match category with
  | none => "undefined"
  | some s => s

/-- The `breakdown` record produced by the priority scorer. -/
structure PriorityBreakdown where
  complaintCountScore : ℚ
  timePendingScore : ℚ
  areaWeightScore : ℚ
  categoryMultiplier : ℚ
deriving DecidableEq

/-- The result record of `calculatePriority`. -/
structure PriorityResult where
  score : ℤ
  breakdown : PriorityBreakdown
  severityLevel : String
  reasoning : String
deriving DecidableEq

/-- The `categoryMultipliers` lookup of `calculatePriority`
(`categoryMultipliers[complaint.category] || 1.0`; a missing or unknown
category falls through to `1.0`, and every stored multiplier is truthy). -/
def categoryMultipliers (category : Option String) : ℚ :=
  if category = some "Drainage" then 1.5
  else if category = some "Garbage" then 1.3
  else if category = some "Water Leakage" then 1.2
  else if category = some "Road Damage" then 1.1
  else if category = some "Streetlight Issue" then 1.0
  else 1.0

/-- The severity mapping used (inline, twice) by the scorer and by the
priority-listing route's bucket predicates: the fixed breakpoints
80/60/40. -/
def severityFor (finalScore : ℤ) : String :=
  if finalScore ≥ 80 then "critical"
  else if finalScore ≥ 60 then "high"
  else if finalScore ≥ 40 then "medium"
  else "low"

/-- `fallbackCalculatePriority(complaint)`: keyword-based scoring used when
the main computation throws.  Returns the pair `(score, breakdown)`.
`complaint.category?.toLowerCase() || ""` is the lowercased category with
`""` for `undefined` (a lowercased string is falsy only when empty, in which
case the default is `""` as well). -/
def fallbackCalculatePriority (category : Option String) : ℤ × PriorityBreakdown :=
  let cat := (category.map jsToLower).getD ""
  let neutral : PriorityBreakdown :=
    { complaintCountScore := 50, timePendingScore := 50
      areaWeightScore := 50, categoryMultiplier := 1 }
  if containsSub cat "drainage" || containsSub cat "sewage" then
    (85, { neutral with categoryMultiplier := 1.5 })
  else if containsSub cat "garbage" then
    (70, { neutral with categoryMultiplier := 1.2 })
  else if containsSub cat "water" then
    (65, { neutral with categoryMultiplier := 1.1 })
  else if containsSub cat "road" || containsSub cat "pothole" then
    (60, { neutral with categoryMultiplier := 1.0 })
  else if containsSub cat "light" then
    (55, { neutral with categoryMultiplier := 0.9 })
  else
    (50, neutral)

/-- `calculatePriority(complaint, options)`.

Inputs: the complaint's `category`; the awaited result of the
`Complaint.countDocuments` same-location query (`countQuery`, whose `.error`
case triggers the `catch` branch of the source); `options.hoursPending` and
`options.areaWeight` (both possibly `undefined`).

The body mirrors the source line by line; both severity chains are inlined
exactly as in the source (they coincide with `severityFor`). -/
def calculatePriority (category : Option String) (countQuery : Except Unit ℕ)
    (hoursPending areaWeight : Option ℚ) : PriorityResult :=
  match countQuery with
  | .ok sameLocationCount =>
    let complaintCountScore : ℚ := min ((sameLocationCount : ℚ) * 10 + 50) 100
    let hp : ℚ := jsOr hoursPending 0
    let timePendingScore : ℚ := min (hp * 2 + 50) 100
    let areaWeightScore : ℚ := jsOr areaWeight 50
    let categoryMultiplier : ℚ := categoryMultipliers category
    let rawScore : ℚ :=
      complaintCountScore * 0.4 + timePendingScore * 0.3 + areaWeightScore * 0.3
    let finalScore : ℤ := min (jsRound (rawScore * categoryMultiplier)) 100
    let severityLevel : String :=
      if finalScore ≥ 80 then "critical"
      else if finalScore ≥ 60 then "high"
      else if finalScore ≥ 40 then "medium"
      else "low"
    let catStr := categoryText category
    let multStr := toString categoryMultiplier
    let reasoning : String :=
      "Score: " ++ toString finalScore ++ "/100. " ++
      "Location complaints: " ++ toString sameLocationCount ++ ", " ++
      "Category: " ++ catStr ++ ", " ++
      "Multiplier: " ++ multStr ++ "x"
    { score := finalScore
      breakdown :=
        { complaintCountScore := complaintCountScore
          timePendingScore := timePendingScore
          areaWeightScore := areaWeightScore
          categoryMultiplier := categoryMultiplier }
      severityLevel := severityLevel
      reasoning := reasoning }
  | .error _ =>
    let fallback := fallbackCalculatePriority category
    { score := fallback.1
      breakdown := fallback.2
      severityLevel :=
        if fallback.1 ≥ 80 then "critical"
        else if fallback.1 ≥ 60 then "high"
        else if fallback.1 ≥ 40 then "medium"
        else "low"
      reasoning := "Default assessment (AI disabled)" }

/-- `cosineSimilarity(vecA, vecB)`.

`!vecA` / `!vecB` in JS is true exactly for a missing vector (an array,
even an empty one, is truthy), hence the `Option` guard; a length mismatch
returns `0`.  Otherwise the quotient `dot / (sqrt normA * sqrt normB)` is
taken; when the denominator is zero (both empty vectors, or an all-zero
vector) the JS quotient is `0 / 0 = NaN`, modelled as `none`. -/
noncomputable def cosineSimilarity (vecA vecB : Option (List ℝ)) : Option ℝ :=
  match vecA, vecB with
  | none, _ => some 0
  | _, none => some 0
  | some a, some b =>
    if a.length ≠ b.length then some 0
    else
      let dotProduct : ℝ := (List.zipWith (fun x y => x * y) a b).sum
      let normA : ℝ := (a.map (fun x => x * x)).sum
      let normB : ℝ := (b.map (fun x => x * x)).sum
      if Real.sqrt normA * Real.sqrt normB = 0 then none
      else some (dotProduct / (Real.sqrt normA * Real.sqrt normB))

/-- A stored complaint as seen by `detectDuplicate`: an id and a possibly
missing embedding vector. -/
structure RecentComplaint where
  id : ℕ
  embedding : Option (List ℝ)

/-- The mutable `bestMatch` accumulator of `detectDuplicate`'s loop
(`{ similarity: 0, complaint: null }` initially). -/
structure BestMatch where
  similarity : ℝ
  complaint : Option ℕ

/-- The result record of `detectDuplicate` (`matchingComplaint` carries
`bestMatch.complaint?._id || null`; `matchedField` is `null` or the string
`"text"`). -/
structure DuplicateCheckResult where
  isDuplicate : Bool
  similarity : ℝ
  matchingComplaint : Option ℕ
  matchedField : Option String

/-- `DUPLICATE_THRESHOLD` of the source. -/
noncomputable def duplicateThreshold : ℝ := 0.85

/-- One iteration of `detectDuplicate`'s `for` loop: skip an entry whose
embedding is missing or empty, compute the cosine similarity against the
candidate embedding, and replace the best match on a strictly greater
similarity (a `NaN` similarity compares false and leaves the best match
unchanged). -/
noncomputable def duplicateStep (newEmbedding : List ℝ) (best : BestMatch)
    (c : RecentComplaint) : BestMatch :=
  match c.embedding with
  | none => best
  | some emb =>
    if emb.length = 0 then best
    else
      match cosineSimilarity (some newEmbedding) (some emb) with
      | none => best
      | some similarity =>
        if best.similarity < similarity then
          { similarity := similarity, complaint := some c.id }
        else best

/-- Core of `detectDuplicate(newComplaint)` (lines after the embedding of the
candidate text and the recent-complaints query have been obtained): the
empty-window early return, the best-match loop and the threshold check. -/
noncomputable def detectDuplicate (newEmbedding : List ℝ)
    (recentComplaints : List RecentComplaint) : DuplicateCheckResult :=
  if recentComplaints.length = 0 then
    { isDuplicate := false, similarity := 0
      matchingComplaint := none, matchedField := none }
  else
    let bestMatch :=
      recentComplaints.foldl (duplicateStep newEmbedding)
        { similarity := 0, complaint := none }
    { isDuplicate := decide (duplicateThreshold < bestMatch.similarity)
      similarity := bestMatch.similarity
      matchingComplaint := bestMatch.complaint
      matchedField := some "text" }

/-- The usable similarity an entry contributes to the loop: `none` when the
entry is skipped (missing or empty embedding) or when its similarity is
`NaN`. -/
noncomputable def usableSim (newEmbedding : List ℝ) (c : RecentComplaint) :
    Option ℝ :=
  match c.embedding with
  | none => none
  | some emb =>
    if emb.length = 0 then none
    else cosineSimilarity (some newEmbedding) (some emb)

/-- Specification-side accumulation of the best similarity over a window:
the maximum of `0` and every usable similarity. -/
noncomputable def simFoldStep (newEmbedding : List ℝ) (b : ℝ)
    (c : RecentComplaint) : ℝ :=
  match usableSim newEmbedding c with
  | none => b
  | some s => max b s

/-- The best similarity `detectDuplicate` can see over a window. -/
noncomputable def bestSimilarity (newEmbedding : List ℝ)
    (w : List RecentComplaint) : ℝ :=
  w.foldl (simFoldStep newEmbedding) 0

/-- A persisted complaint as far as the routes under verification read it. -/
structure StoredComplaint where
  id : ℕ
  category : String
  description : String
  location : String
  createdBy : String
  priorityScore : ℤ
  aiSeverityLevel : String
deriving DecidableEq

/-- The four severity buckets built by `GET /api/complaints/priority`. -/
structure GroupedComplaints where
  critical : List StoredComplaint
  high : List StoredComplaint
  medium : List StoredComplaint
  low : List StoredComplaint

/-- The grouping step of `GET /api/complaints/priority`: filter the fetched
complaints into the four fixed score bands. -/
def priorityGrouped (complaints : List StoredComplaint) : GroupedComplaints :=
  { critical := complaints.filter (fun c => decide (c.priorityScore ≥ 80))
    high := complaints.filter
      (fun c => decide (c.priorityScore ≥ 60) && decide (c.priorityScore < 80))
    medium := complaints.filter
      (fun c => decide (c.priorityScore ≥ 40) && decide (c.priorityScore < 60))
    low := complaints.filter (fun c => decide (c.priorityScore < 40)) }

/-- The request body fields of `POST /api/complaints` that the duplicate
gate and the creation step read. -/
structure CreateRequest where
  category : Option String
  description : String
  location : String
  createdBy : Option String

/-- The observable response of `POST /api/complaints`: HTTP status, message,
the rounded similarity reported in the payload (in the 409 warning and in
the 201 `aiInsights`), the matching-complaint reference of the 409 payload
and the created record of the 201 payload. -/
structure CreateResponse where
  status : ℕ
  message : String
  similarity : Option ℤ
  matchingComplaint : Option ℕ
  complaint : Option StoredComplaint

/-- The duplicate gate and creation step of `POST /api/complaints` (after
the AI collaborators have produced `textClassification.predictedCategory`,
the `duplicateCheck` and the `priorityResult`): on
`duplicateCheck.isDuplicate && duplicateCheck.similarity > 0.85` respond 409
and create nothing, otherwise persist a new record (modelled as appending to
the store with a fresh id) and respond 201. -/
noncomputable def createComplaint (req : CreateRequest)
    (predictedCategory : Option String) (duplicateCheck : DuplicateCheckResult)
    (priorityResult : PriorityResult) (newId : ℕ)
    (store : List StoredComplaint) : CreateResponse × List StoredComplaint :=
  if duplicateCheck.isDuplicate && decide (duplicateThreshold < duplicateCheck.similarity) then
    ({ status := 409
       message := "Potential duplicate complaint detected"
       similarity := some (jsRoundR (duplicateCheck.similarity * 100))
       matchingComplaint := duplicateCheck.matchingComplaint
       complaint := none }, store)
  else
    let finalCategory := jsOrString req.category (jsOrString predictedCategory "Other")
    let c : StoredComplaint :=
      { id := newId
        category := finalCategory
        description := req.description
        location := req.location
        createdBy := jsOrString req.createdBy "Anonymous"
        priorityScore := priorityResult.score
        aiSeverityLevel := priorityResult.severityLevel }
    ({ status := 201
       message := "Complaint submitted successfully"
       similarity := some (jsRoundR (duplicateCheck.similarity * 100))
       matchingComplaint := none
       complaint := some c }, store ++ [c])

/-! ### Helper lemmas -/

lemma jsOr_some_self (h : ℚ) : jsOr (some h) 0 = h := by
  unfold jsOr
  by_cases h0 : h = 0 <;> simp [h0]

lemma severityFor_eq_critical_iff (s : ℤ) : severityFor s = "critical" ↔ 80 ≤ s := by
  unfold severityFor
  split_ifs <;> simp <;> omega

lemma severityFor_eq_high_iff (s : ℤ) : severityFor s = "high" ↔ 60 ≤ s ∧ s < 80 := by
  unfold severityFor
  split_ifs <;> simp <;> omega

lemma severityFor_eq_medium_iff (s : ℤ) : severityFor s = "medium" ↔ 40 ≤ s ∧ s < 60 := by
  unfold severityFor
  split_ifs <;> simp <;> omega

lemma severityFor_eq_low_iff (s : ℤ) : severityFor s = "low" ↔ s < 40 := by
  unfold severityFor
  split_ifs <;> simp <;> omega

lemma calculatePriority_severityLevel (category : Option String)
    (countQuery : Except Unit ℕ) (hoursPending areaWeight : Option ℚ) :
    (calculatePriority category countQuery hoursPending areaWeight).severityLevel
      = severityFor (calculatePriority category countQuery hoursPending areaWeight).score := by
  cases countQuery <;> rfl

lemma one_le_categoryMultipliers (category : Option String) :
    1 ≤ categoryMultipliers category := by
  unfold categoryMultipliers
  split_ifs <;> norm_num

lemma fallbackCalculatePriority_breakdown (category : Option String) :
    (fallbackCalculatePriority category).2.complaintCountScore = 50 ∧
    (fallbackCalculatePriority category).2.timePendingScore = 50 ∧
    (fallbackCalculatePriority category).2.areaWeightScore = 50 := by
  unfold fallbackCalculatePriority
  dsimp only
  split_ifs <;> exact ⟨rfl, rfl, rfl⟩

lemma calculatePriority_breakdown_ok (category : Option String) (n : ℕ)
    (hoursPending areaWeight : Option ℚ) :
    (calculatePriority category (.ok n) hoursPending areaWeight).breakdown
      = { complaintCountScore := min ((n : ℚ) * 10 + 50) 100
          timePendingScore := min (jsOr hoursPending 0 * 2 + 50) 100
          areaWeightScore := jsOr areaWeight 50
          categoryMultiplier := categoryMultipliers category } := by
  rfl

lemma calculatePriority_score_ok (category : Option String) (n : ℕ)
    (hoursPending areaWeight : Option ℚ) :
    (calculatePriority category (.ok n) hoursPending areaWeight).score
      = min (jsRound ((min ((n : ℚ) * 10 + 50) 100 * 0.4
          + min (jsOr hoursPending 0 * 2 + 50) 100 * 0.3
          + jsOr areaWeight 50 * 0.3) * categoryMultipliers category)) 100 := by
  rfl

lemma simFoldStep_apply (e : List ℝ) (b : ℝ) (c : RecentComplaint) :
    simFoldStep e b c =
      match usableSim e c with
      | none => b
      | some s => max b s := rfl

lemma duplicateStep_eq_usableSim (e : List ℝ) (best : BestMatch) (c : RecentComplaint) :
    duplicateStep e best c =
      match usableSim e c with
      | none => best
      | some s =>
        if best.similarity < s then { similarity := s, complaint := some c.id }
        else best := by
  unfold duplicateStep usableSim
  rcases c.embedding with _ | emb
  · rfl
  · by_cases hlen : emb.length = 0
    · simp only [if_pos hlen]
    · simp only [if_neg hlen]

lemma le_foldl_simFoldStep (e : List ℝ) (w : List RecentComplaint) :
    ∀ b : ℝ, b ≤ w.foldl (simFoldStep e) b := by
  induction w with
  | nil => intro b; exact le_refl b
  | cons c w ih =>
    intro b
    rw [List.foldl_cons]
    refine le_trans ?_ (ih (simFoldStep e b c))
    rw [simFoldStep_apply]
    rcases h : usableSim e c with _ | s
    · exact le_refl b
    · exact le_max_left b s

lemma foldl_duplicateStep_spec (e : List ℝ) (w : List RecentComplaint) :
    ∀ (b : ℝ) (m : Option ℕ),
      (w.foldl (duplicateStep e) { similarity := b, complaint := m }).similarity
          = w.foldl (simFoldStep e) b ∧
      (¬ b < w.foldl (simFoldStep e) b →
        (w.foldl (duplicateStep e) { similarity := b, complaint := m }).complaint = m) ∧
      (b < w.foldl (simFoldStep e) b →
        (w.foldl (duplicateStep e) { similarity := b, complaint := m }).complaint
          = (w.find? (fun c =>
              decide (usableSim e c = some (w.foldl (simFoldStep e) b)))).map
              RecentComplaint.id) := by
  induction w with
  | nil =>
    intro b m
    exact ⟨rfl, fun _ => rfl, fun hb => absurd hb (lt_irrefl b)⟩
  | cons c w ih =>
    intro b m
    rw [List.foldl_cons, List.foldl_cons, duplicateStep_eq_usableSim, simFoldStep_apply]
    rcases h : usableSim e c with _ | s
    · dsimp only
      obtain ⟨ih1, ih2, ih3⟩ := ih b m
      refine ⟨ih1, ih2, fun hb => ?_⟩
      rw [List.find?_cons_of_neg, ih3 hb]
      simp [h]
    · dsimp only
      by_cases hbs : b < s
      · rw [if_pos hbs, max_eq_right (le_of_lt hbs)]
        obtain ⟨ih1, ih2, ih3⟩ := ih s (some c.id)
        have hsS : s ≤ w.foldl (simFoldStep e) s := le_foldl_simFoldStep e w s
        refine ⟨ih1, fun hb => absurd (lt_of_lt_of_le hbs hsS) hb, fun hb => ?_⟩
        by_cases hsS2 : s < w.foldl (simFoldStep e) s
        · rw [List.find?_cons_of_neg, ih3 hsS2]
          simp only [h, decide_eq_true_eq, Option.some_inj]
          exact fun habs => absurd habs (ne_of_lt hsS2)
        · have hS : w.foldl (simFoldStep e) s = s :=
            le_antisymm (not_lt.mp hsS2) hsS
          rw [hS, List.find?_cons_of_pos, ih2 (by rw [hS]; exact lt_irrefl s)]
          · rfl
          · simp [h, hS]
      · rw [if_neg hbs, max_eq_left (le_of_not_lt hbs)]
        obtain ⟨ih1, ih2, ih3⟩ := ih b m
        refine ⟨ih1, ih2, fun hb => ?_⟩
        rw [List.find?_cons_of_neg, ih3 hb]
        simp only [h, decide_eq_true_eq, Option.some_inj]
        intro habs
        rw [habs] at hbs
        exact hbs hb

lemma detectDuplicate_similarity (e : List ℝ) (w : List RecentComplaint) :
    (detectDuplicate e w).similarity = bestSimilarity e w := by
  unfold detectDuplicate bestSimilarity
  by_cases hw : w.length = 0
  · rw [if_pos hw]
    obtain rfl := List.length_eq_zero.mp hw
    rfl
  · rw [if_neg hw]
    exact (foldl_duplicateStep_spec e w 0 none).1

lemma detectDuplicate_isDuplicate (e : List ℝ) (w : List RecentComplaint) :
    (detectDuplicate e w).isDuplicate
      = decide (duplicateThreshold < bestSimilarity e w) := by
  unfold detectDuplicate bestSimilarity
  by_cases hw : w.length = 0
  · rw [if_pos hw]
    obtain rfl := List.length_eq_zero.mp hw
    dsimp only
    rw [eq_comm, decide_eq_false_iff_not]
    norm_num [duplicateThreshold]
  · rw [if_neg hw]
    dsimp only
    rw [(foldl_duplicateStep_spec e w 0 none).1]

lemma detectDuplicate_matchingComplaint (e : List ℝ) (w : List RecentComplaint) :
    (detectDuplicate e w).matchingComplaint =
      if 0 < bestSimilarity e w then
        (w.find? (fun c => decide (usableSim e c = some (bestSimilarity e w)))).map
          RecentComplaint.id
      else none := by
  unfold detectDuplicate bestSimilarity
  by_cases hw : w.length = 0
  · rw [if_pos hw]
    obtain rfl := List.length_eq_zero.mp hw
    dsimp only
    rw [List.foldl_nil, if_neg (lt_irrefl 0)]
  · rw [if_neg hw]
    dsimp only
    obtain ⟨h1, h2, h3⟩ := foldl_duplicateStep_spec e w 0 none
    by_cases h0 : 0 < w.foldl (simFoldStep e) 0
    · rw [if_pos h0]
      exact h3 h0
    · rw [if_neg h0]
      exact h2 h0

lemma detectDuplicate_matchedField (e : List ℝ) (w : List RecentComplaint) :
    (detectDuplicate e w).matchedField
      = if w.length = 0 then none else some "text" := by
  unfold detectDuplicate
  by_cases hw : w.length = 0 <;> simp [hw]

lemma foldl_duplicateStep_unusable (e : List ℝ) (w : List RecentComplaint)
    (hall : ∀ c ∈ w, c.embedding = none ∨ c.embedding = some []) :
    ∀ init, w.foldl (duplicateStep e) init = init := by
  induction w with
  | nil => intro init; rfl
  | cons c w ih =>
    intro init
    rw [List.foldl_cons]
    have hstep : duplicateStep e init c = init := by
      rcases hall c (List.mem_cons_self c w) with hc | hc <;>
        simp [duplicateStep, hc]
    rw [hstep]
    exact ih (fun c2 hc2 => hall c2 (List.mem_cons_of_mem c hc2)) init

lemma cosineSimilarity_nil_nil :
    cosineSimilarity (some ([] : List ℝ)) (some []) = none := by
  unfold cosineSimilarity
  simp [Real.sqrt_zero]

lemma sqrt400_eq : Real.sqrt 400 = 20 := by
  rw [show (400 : ℝ) = 20 ^ 2 by norm_num]
  exact Real.sqrt_sq (by norm_num)

lemma cosSim_threshold_example :
    cosineSimilarity (some [17, Real.sqrt 111]) (some [1, 0]) = some 0.85 := by
  unfold cosineSimilarity
  have h111 : Real.sqrt 111 * Real.sqrt 111 = 111 := Real.mul_self_sqrt (by norm_num)
  norm_num [h111, sqrt400_eq, Real.sqrt_one]

lemma usableSim_threshold_example :
    usableSim [17, Real.sqrt 111] { id := 1, embedding := some [1, 0] } = some 0.85 := by
  unfold usableSim
  dsimp only
  rw [if_neg (by norm_num)]
  exact cosSim_threshold_example

lemma bestSim_threshold_example :
    bestSimilarity [17, Real.sqrt 111] [{ id := 1, embedding := some [1, 0] }] = 0.85 := by
  unfold bestSimilarity
  rw [List.foldl_cons, List.foldl_nil, simFoldStep_apply, usableSim_threshold_example]
  exact max_eq_right (by norm_num)

lemma cosSim_neg_example :
    cosineSimilarity (some [(1 : ℝ)]) (some [-1]) = some (-1) := by
  unfold cosineSimilarity
  norm_num [Real.sqrt_one]

lemma usableSim_neg_example :
    usableSim [(1 : ℝ)] { id := 3, embedding := some [-1] } = some (-1) := by
  unfold usableSim
  dsimp only
  rw [if_neg (by norm_num)]
  exact cosSim_neg_example

lemma bestSim_neg_example :
    bestSimilarity [(1 : ℝ)] [{ id := 3, embedding := some [-1] }] = 0 := by
  unfold bestSimilarity
  rw [List.foldl_cons, List.foldl_nil, simFoldStep_apply, usableSim_neg_example]
  exact max_eq_left (by norm_num)

/-! ### Claims about the priority scorer -/

/-- C1: for every category and non-negative `sameLocationCount`,
`hoursPending` and `areaWeight`, `calculatePriority` computes
`complaintCountScore = min(sameLocationCount*10 + 50, 100)`,
`timePendingScore = min(hoursPending*2 + 50, 100)`, the fixed category
multiplier table (Drainage 1.5, Garbage 1.3, Water Leakage 1.2, Road Damage
1.1, Streetlight Issue 1.0, anything else 1.0), and the final score
`min(round(rawScore * categoryMultiplier), 100)` with
`rawScore = complaintCountScore*0.4 + timePendingScore*0.3 +
areaWeightScore*0.3` — multiply, then round, then clamp.  In particular
`calculatePriority("Drainage", 0, 0, 50)` scores 75 with severity
`"high"`. -/
theorem claim_C1 (category : Option String) (n : ℕ) (h aw : ℚ)
    (hh : 0 ≤ h) (haw : 0 ≤ aw) :
    (calculatePriority category (.ok n) (some h) (some aw)).breakdown.complaintCountScore
        = min ((n : ℚ) * 10 + 50) 100 ∧
    (calculatePriority category (.ok n) (some h) (some aw)).breakdown.timePendingScore
        = min (h * 2 + 50) 100 ∧
    (calculatePriority category (.ok n) (some h) (some aw)).breakdown.categoryMultiplier
        = categoryMultipliers category ∧
    (calculatePriority category (.ok n) (some h) (some aw)).score
        = min (jsRound ((min ((n : ℚ) * 10 + 50) 100 * 0.4
            + min (h * 2 + 50) 100 * 0.3
            + (calculatePriority category (.ok n) (some h) (some aw)).breakdown.areaWeightScore
                * 0.3)
            * categoryMultipliers category)) 100 ∧
    categoryMultipliers (some "Drainage") = 1.5 ∧
    categoryMultipliers (some "Garbage") = 1.3 ∧
    categoryMultipliers (some "Water Leakage") = 1.2 ∧
    categoryMultipliers (some "Road Damage") = 1.1 ∧
    categoryMultipliers (some "Streetlight Issue") = 1.0 ∧
    (category ≠ some "Drainage" → category ≠ some "Garbage" →
      category ≠ some "Water Leakage" → category ≠ some "Road Damage" →
      category ≠ some "Streetlight Issue" → categoryMultipliers category = 1) ∧
    (calculatePriority (some "Drainage") (.ok 0) (some 0) (some 50)).score = 75 ∧
    (calculatePriority (some "Drainage") (.ok 0) (some 0) (some 50)).severityLevel = "high" := by
  refine ⟨?_, ?_, ?_, ?_, by simp [categoryMultipliers], by simp [categoryMultipliers],
    by simp [categoryMultipliers], by simp [categoryMultipliers], by simp [categoryMultipliers],
    ?_, by norm_num [calculatePriority, jsRound, jsOr, categoryMultipliers],
    by norm_num [calculatePriority, jsRound, jsOr, categoryMultipliers]⟩
  · rw [calculatePriority_breakdown_ok]
  · rw [calculatePriority_breakdown_ok]
    simp [jsOr_some_self]
  · rw [calculatePriority_breakdown_ok]
  · rw [calculatePriority_score_ok, calculatePriority_breakdown_ok]
    simp [jsOr_some_self]
  · intro h1 h2 h3 h4 h5
    simp only [categoryMultipliers, h1, h2, h3, h4, h5, if_false]
    norm_num

/-- C1 witness: the hypotheses hold at the concrete input of the claim's
example, and the theorem yields the example's score and severity. -/
theorem claim_C1_witness :
    0 ≤ (0 : ℚ) ∧ 0 ≤ (50 : ℚ) ∧
    (calculatePriority (some "Drainage") (.ok 0) (some 0) (some 50)).score = 75 ∧
    (calculatePriority (some "Drainage") (.ok 0) (some 0) (some 50)).severityLevel = "high" := by
  have hmain := claim_C1 (some "Drainage") 0 0 50 (by norm_num) (by norm_num)
  exact ⟨by norm_num, by norm_num,
    hmain.2.2.2.2.2.2.2.2.2.2.1, hmain.2.2.2.2.2.2.2.2.2.2.2⟩

/-- C2: the severity level is a pure function of the final score with the
fixed breakpoints 80/60/40; `calculatePriority` derives `severityLevel`
through exactly that mapping, and the priority-listing route's four buckets
contain a stored complaint exactly when the same mapping classifies its
`priorityScore` into that bucket. -/
theorem claim_C2 :
    (∀ s : ℤ,
      (80 ≤ s → severityFor s = "critical") ∧
      (60 ≤ s ∧ s < 80 → severityFor s = "high") ∧
      (40 ≤ s ∧ s < 60 → severityFor s = "medium") ∧
      (0 ≤ s ∧ s < 40 → severityFor s = "low")) ∧
    (∀ (category : Option String) (countQuery : Except Unit ℕ)
        (hoursPending areaWeight : Option ℚ),
      (calculatePriority category countQuery hoursPending areaWeight).severityLevel
        = severityFor (calculatePriority category countQuery hoursPending areaWeight).score) ∧
    (∀ (cs : List StoredComplaint) (c : StoredComplaint),
      (c ∈ (priorityGrouped cs).critical ↔
        c ∈ cs ∧ severityFor c.priorityScore = "critical") ∧
      (c ∈ (priorityGrouped cs).high ↔
        c ∈ cs ∧ severityFor c.priorityScore = "high") ∧
      (c ∈ (priorityGrouped cs).medium ↔
        c ∈ cs ∧ severityFor c.priorityScore = "medium") ∧
      (c ∈ (priorityGrouped cs).low ↔
        c ∈ cs ∧ severityFor c.priorityScore = "low")) := by
  refine ⟨?_, calculatePriority_severityLevel, ?_⟩
  · intro s
    refine ⟨fun hs => ?_, fun hs => ?_, fun hs => ?_, fun hs => ?_⟩
    · exact (severityFor_eq_critical_iff s).mpr hs
    · exact (severityFor_eq_high_iff s).mpr ⟨hs.1, hs.2⟩
    · exact (severityFor_eq_medium_iff s).mpr ⟨hs.1, hs.2⟩
    · exact (severityFor_eq_low_iff s).mpr hs.2
  · intro cs c
    refine ⟨?_, ?_, ?_, ?_⟩ <;>
      simp [priorityGrouped, List.mem_filter, severityFor_eq_critical_iff,
        severityFor_eq_high_iff, severityFor_eq_medium_iff, severityFor_eq_low_iff]

/-- C2 witness: the breakpoint mapping and the bucket membership evaluated
at score 85. -/
theorem claim_C2_witness :
    (80 ≤ (85 : ℤ) ∧ severityFor 85 = "critical") ∧
    (calculatePriority (some "Garbage") (.error ()) none none).severityLevel
      = severityFor (calculatePriority (some "Garbage") (.error ()) none none).score := by
  refine ⟨⟨by norm_num, (claim_C2.1 85).1 (by norm_num)⟩, claim_C2.2.1 _ _ _ _⟩

/-- C6 counterexample: on the failure path the scorer is not the fixed
neutral fallback — with category `"Drainage"` it returns score 85,
multiplier 1.5 and severity `"critical"`. -/
theorem claim_C6_counterexample :
    (calculatePriority (some "Drainage") (.error ()) none none).score = 85 ∧
    (calculatePriority (some "Drainage") (.error ()) none none).severityLevel = "critical" ∧
    (calculatePriority (some "Drainage") (.error ()) none none).breakdown.categoryMultiplier
      = 1.5 ∧
    (85 : ℤ) ≠ 50 ∧ "critical" ≠ "medium" ∧ (1.5 : ℚ) ≠ 1 := by
  refine ⟨by decide, by decide, rfl, by norm_num, by decide, by norm_num⟩

/-- C6 (amended): whenever the main computation fails, `calculatePriority`
returns the keyword-based fallback assessment — score and multiplier from
the category keyword rules, the other three breakdown components 50,
severity derived from the fallback score by the standard thresholds, and
the fixed reasoning string `"Default assessment (AI disabled)"` — and never
raises. -/
theorem claim_C6_amended (category : Option String)
    (hoursPending areaWeight : Option ℚ) :
    (calculatePriority category (.error ()) hoursPending areaWeight).score
        = (fallbackCalculatePriority category).1 ∧
    (calculatePriority category (.error ()) hoursPending areaWeight).breakdown
        = (fallbackCalculatePriority category).2 ∧
    (calculatePriority category (.error ()) hoursPending areaWeight).severityLevel
        = severityFor (fallbackCalculatePriority category).1 ∧
    (calculatePriority category (.error ()) hoursPending areaWeight).reasoning
        = "Default assessment (AI disabled)" ∧
    (calculatePriority category (.error ()) hoursPending areaWeight).breakdown.complaintCountScore
        = 50 ∧
    (calculatePriority category (.error ()) hoursPending areaWeight).breakdown.timePendingScore
        = 50 ∧
    (calculatePriority category (.error ()) hoursPending areaWeight).breakdown.areaWeightScore
        = 50 := by
  refine ⟨rfl, rfl, rfl, rfl, ?_, ?_, ?_⟩
  · exact (fallbackCalculatePriority_breakdown category).1
  · exact (fallbackCalculatePriority_breakdown category).2.1
  · exact (fallbackCalculatePriority_breakdown category).2.2

/-- C7 counterexample: the supplied `areaWeight = 0` lies in `[0,100]`, yet
the returned `breakdown.areaWeightScore` is 50, not the pass-through 0
(the JS `options.areaWeight || 50` treats 0 as falsy). -/
theorem claim_C7_counterexample :
    (calculatePriority (some "Garbage") (.ok 0) (some 0) (some 0)).breakdown.areaWeightScore
      = 50 ∧ (50 : ℚ) ≠ 0 :=
  ⟨by decide, by norm_num⟩

/-- C7 (amended): a supplied `areaWeight` in `(0,100]` is passed through
unchanged into `breakdown.areaWeightScore`; an unsupplied `areaWeight`, or
the supplied value 0, yields 50. -/
theorem claim_C7_amended (category : Option String) (n : ℕ)
    (hoursPending : Option ℚ) (aw : ℚ) (h1 : 0 < aw) (h2 : aw ≤ 100) :
    (calculatePriority category (.ok n) hoursPending (some aw)).breakdown.areaWeightScore
        = aw ∧
    (calculatePriority category (.ok n) hoursPending none).breakdown.areaWeightScore = 50 ∧
    (calculatePriority category (.ok n) hoursPending (some 0)).breakdown.areaWeightScore
        = 50 := by
  refine ⟨?_, rfl, rfl⟩
  rw [calculatePriority_breakdown_ok]
  simp [jsOr, h1.ne']

/-- C7 witness: the amended claim evaluated at the supplied
`areaWeight = 25`. -/
theorem claim_C7_witness :
    0 < (25 : ℚ) ∧ (25 : ℚ) ≤ 100 ∧
    (calculatePriority none (.ok 0) none (some 25)).breakdown.areaWeightScore = 25 :=
  ⟨by norm_num, by norm_num,
    (claim_C7_amended none 0 none 25 (by norm_num) (by norm_num)).1⟩

/-- C10: for non-negative inputs, `complaintCountScore` and
`timePendingScore` are floored at 50 (and capped at 100), every category
multiplier is at least 1, and whenever the returned `areaWeightScore` is at
least 50 the final score is at least 50 — so the severity is never
`"low"`. -/
theorem claim_C10 (category : Option String) (n : ℕ) (h : ℚ)
    (areaWeight : Option ℚ) (hh : 0 ≤ h) :
    (50 ≤ (calculatePriority category (.ok n) (some h) areaWeight).breakdown.complaintCountScore ∧
      (calculatePriority category (.ok n) (some h) areaWeight).breakdown.complaintCountScore ≤ 100) ∧
    (50 ≤ (calculatePriority category (.ok n) (some h) areaWeight).breakdown.timePendingScore ∧
      (calculatePriority category (.ok n) (some h) areaWeight).breakdown.timePendingScore ≤ 100) ∧
    1 ≤ (calculatePriority category (.ok n) (some h) areaWeight).breakdown.categoryMultiplier ∧
    (50 ≤ (calculatePriority category (.ok n) (some h) areaWeight).breakdown.areaWeightScore →
      50 ≤ (calculatePriority category (.ok n) (some h) areaWeight).score ∧
      (calculatePriority category (.ok n) (some h) areaWeight).severityLevel ≠ "low") := by
  have hn : (0 : ℚ) ≤ (n : ℚ) := Nat.cast_nonneg n
  have hccs : (calculatePriority category (.ok n) (some h) areaWeight).breakdown.complaintCountScore
      = min ((n : ℚ) * 10 + 50) 100 := by rw [calculatePriority_breakdown_ok]
  have htps : (calculatePriority category (.ok n) (some h) areaWeight).breakdown.timePendingScore
      = min (h * 2 + 50) 100 := by rw [calculatePriority_breakdown_ok]; simp [jsOr_some_self]
  have hmult : (calculatePriority category (.ok n) (some h) areaWeight).breakdown.categoryMultiplier
      = categoryMultipliers category := by rw [calculatePriority_breakdown_ok]
  have hccs50 : 50 ≤ min ((n : ℚ) * 10 + 50) 100 := le_min (by linarith) (by norm_num)
  have htps50 : 50 ≤ min (h * 2 + 50) 100 := le_min (by linarith) (by norm_num)
  refine ⟨⟨by rw [hccs]; exact hccs50, by rw [hccs]; exact min_le_right _ _⟩,
    ⟨by rw [htps]; exact htps50, by rw [htps]; exact min_le_right _ _⟩,
    by rw [hmult]; exact one_le_categoryMultipliers category, ?_⟩
  intro haws
  have hscore : (calculatePriority category (.ok n) (some h) areaWeight).score
      = min (jsRound ((min ((n : ℚ) * 10 + 50) 100 * 0.4
          + min (h * 2 + 50) 100 * 0.3
          + (calculatePriority category (.ok n) (some h) areaWeight).breakdown.areaWeightScore
            * 0.3) * categoryMultipliers category)) 100 := by
    rw [calculatePriority_score_ok, calculatePriority_breakdown_ok]
    simp [jsOr_some_self]
  have hraw : (50 : ℚ) ≤ min ((n : ℚ) * 10 + 50) 100 * 0.4
      + min (h * 2 + 50) 100 * 0.3
      + (calculatePriority category (.ok n) (some h) areaWeight).breakdown.areaWeightScore
        * 0.3 := by linarith
  have hrawmul : (50 : ℚ) ≤ (min ((n : ℚ) * 10 + 50) 100 * 0.4
      + min (h * 2 + 50) 100 * 0.3
      + (calculatePriority category (.ok n) (some h) areaWeight).breakdown.areaWeightScore
        * 0.3) * categoryMultipliers category := by
    have := le_mul_of_one_le_right (by linarith : (0 : ℚ) ≤ min ((n : ℚ) * 10 + 50) 100 * 0.4
      + min (h * 2 + 50) 100 * 0.3
      + (calculatePriority category (.ok n) (some h) areaWeight).breakdown.areaWeightScore
        * 0.3) (one_le_categoryMultipliers category)
    linarith
  have hjs : (50 : ℤ) ≤ jsRound ((min ((n : ℚ) * 10 + 50) 100 * 0.4
      + min (h * 2 + 50) 100 * 0.3
      + (calculatePriority category (.ok n) (some h) areaWeight).breakdown.areaWeightScore
        * 0.3) * categoryMultipliers category) := by
    unfold jsRound
    apply Int.le_floor.mpr
    push_cast
    linarith
  have hfinal : 50 ≤ (calculatePriority category (.ok n) (some h) areaWeight).score := by
    rw [hscore]
    exact le_min hjs (by norm_num)
  refine ⟨hfinal, ?_⟩
  rw [calculatePriority_severityLevel]
  intro hlow
  rw [severityFor_eq_low_iff] at hlow
  omega

/-- C10 witness: the bounds evaluated at `("Drainage", 0, 0, areaWeight 50)`,
whose returned area-weight score 50 satisfies the inner hypothesis. -/
theorem claim_C10_witness :
    0 ≤ (0 : ℚ) ∧
    (50 : ℚ) ≤ (calculatePriority (some "Drainage") (.ok 0) (some 0)
      (some 50)).breakdown.areaWeightScore ∧
    50 ≤ (calculatePriority (some "Drainage") (.ok 0) (some 0) (some 50)).score ∧
    (calculatePriority (some "Drainage") (.ok 0) (some 0) (some 50)).severityLevel ≠ "low" := by
  have hmain := claim_C10 (some "Drainage") 0 0 (some 50) (by norm_num)
  have haws : (50 : ℚ) ≤ (calculatePriority (some "Drainage") (.ok 0) (some 0)
      (some 50)).breakdown.areaWeightScore := by decide
  exact ⟨by norm_num, haws, (hmain.2.2.2 haws).1, (hmain.2.2.2 haws).2⟩

/-! ### Claims about the similarity utility and the duplicate detector -/

/-- C3: `detectDuplicate` reports a duplicate exactly when the best
similarity over the window is strictly greater than 0.85; a best similarity
of exactly 0.85 yields `isDuplicate = false`. -/
theorem claim_C3 (e : List ℝ) (w : List RecentComplaint) :
    ((detectDuplicate e w).isDuplicate = true ↔ 0.85 < bestSimilarity e w) ∧
    (bestSimilarity e w = 0.85 → (detectDuplicate e w).isDuplicate = false) := by
  constructor
  · rw [detectDuplicate_isDuplicate]
    unfold duplicateThreshold
    rw [decide_eq_true_eq]
  · intro hb
    rw [detectDuplicate_isDuplicate, hb, decide_eq_false_iff_not]
    unfold duplicateThreshold
    exact lt_irrefl _

/-- C3 witness: a window whose single entry has cosine similarity exactly
0.85 against the candidate (`[17, √111]` against `[1, 0]`), on which the
detector answers `isDuplicate = false`. -/
theorem claim_C3_witness :
    bestSimilarity [17, Real.sqrt 111] [{ id := 1, embedding := some [1, 0] }] = 0.85 ∧
    (detectDuplicate [17, Real.sqrt 111]
      [{ id := 1, embedding := some [1, 0] }]).isDuplicate = false :=
  ⟨bestSim_threshold_example, (claim_C3 _ _).2 bestSim_threshold_example⟩

/-- C4 counterexample: two empty vectors of equal length slip past both
guards, so the JS quotient is `0 / 0 = NaN` (modelled `none`) — not the
claimed exact 0. -/
theorem claim_C4_counterexample :
    cosineSimilarity (some ([] : List ℝ)) (some []) = none ∧
    (none : Option ℝ) ≠ some 0 :=
  ⟨cosineSimilarity_nil_nil, by simp⟩

/-- C4 (amended): a missing vector, or a pair of different lengths (which
covers the case of exactly one empty vector), yields exactly 0 and no
error; but two empty vectors have equal lengths and yield `NaN`, not 0. -/
theorem claim_C4_amended (a b : Option (List ℝ)) :
    ((a = none ∨ b = none) → cosineSimilarity a b = some 0) ∧
    (∀ la lb, a = some la → b = some lb → la.length ≠ lb.length →
      cosineSimilarity a b = some 0) ∧
    cosineSimilarity (some ([] : List ℝ)) (some []) = none := by
  refine ⟨?_, ?_, cosineSimilarity_nil_nil⟩
  · rintro (rfl | rfl)
    · cases b <;> rfl
    · cases a <;> rfl
  · rintro la lb rfl rfl hlen
    unfold cosineSimilarity
    dsimp only
    rw [if_pos hlen]

/-- C4 witness: the guard cases evaluated at a missing vector and at the
mismatched lengths 1 and 2. -/
theorem claim_C4_witness :
    ((none : Option (List ℝ)) = none ∨ (some [(1 : ℝ)] : Option (List ℝ)) = none) ∧
    cosineSimilarity none (some [(1 : ℝ)]) = some 0 ∧
    ([(1 : ℝ)].length ≠ [(1 : ℝ), 2].length) ∧
    cosineSimilarity (some [(1 : ℝ)]) (some [1, 2]) = some 0 :=
  ⟨Or.inl rfl, (claim_C4_amended none (some [1])).1 (Or.inl rfl), by norm_num,
    (claim_C4_amended (some [1]) (some [1, 2])).2.1 [1] [1, 2] rfl rfl (by norm_num)⟩

/-- C5 counterexample: on a nonempty window none of whose entries carries a
usable embedding, `matchedField` is `"text"`, not the claimed `null` (only
the empty-window early return produces `matchedField: null`). -/
theorem claim_C5_counterexample :
    (detectDuplicate [1] [{ id := 7, embedding := none }]).matchedField = some "text" ∧
    some "text" ≠ (none : Option String) := by
  constructor
  · rw [detectDuplicate_matchedField]
    simp
  · simp

/-- C5 (amended): an empty window returns the all-null result
`{isDuplicate: false, similarity: 0, matchingComplaintId: null,
matchedField: null}`; a nonempty window with no usable (present, non-empty)
embedding returns the same result except `matchedField = "text"`. -/
theorem claim_C5_amended (e : List ℝ) (w : List RecentComplaint) :
    (w = [] →
      detectDuplicate e w =
        { isDuplicate := false, similarity := 0
          matchingComplaint := none, matchedField := none }) ∧
    (w ≠ [] → (∀ c ∈ w, c.embedding = none ∨ c.embedding = some []) →
      detectDuplicate e w =
        { isDuplicate := false, similarity := 0
          matchingComplaint := none, matchedField := some "text" }) := by
  constructor
  · rintro rfl
    rfl
  · intro hne hall
    unfold detectDuplicate
    rw [if_neg (fun hlen => hne (List.length_eq_zero.mp hlen))]
    dsimp only
    rw [foldl_duplicateStep_unusable e w hall]
    have hdec : decide (duplicateThreshold < (0 : ℝ)) = false := by
      rw [decide_eq_false_iff_not]
      norm_num [duplicateThreshold]
    dsimp only
    rw [hdec]

/-- C5 witness: the empty window, and the nonempty window whose only entry
has no embedding. -/
theorem claim_C5_witness :
    detectDuplicate [1] [] =
      { isDuplicate := false, similarity := 0
        matchingComplaint := none, matchedField := none } ∧
    ([{ id := 7, embedding := none }] ≠ ([] : List RecentComplaint)) ∧
    detectDuplicate [1] [{ id := 7, embedding := none }] =
      { isDuplicate := false, similarity := 0
        matchingComplaint := none, matchedField := some "text" } := by
  refine ⟨(claim_C5_amended [1] []).1 rfl, by simp,
    (claim_C5_amended [1] [{ id := 7, embedding := none }]).2 (by simp) ?_⟩
  intro c hc
  rw [List.mem_singleton] at hc
  rw [hc]
  exact Or.inl rfl

/-- C9 counterexample: a window whose only entry has a well-defined (and
thus highest) similarity of −1 against the candidate, yet the detector
reports no matching complaint — the loop's best-match sentinel starts at
similarity 0, so entries with non-positive similarity are never
retained. -/
theorem claim_C9_counterexample :
    usableSim [(1 : ℝ)] { id := 3, embedding := some [-1] } = some (-1) ∧
    (detectDuplicate [(1 : ℝ)]
      [{ id := 3, embedding := some [-1] }]).matchingComplaint = none ∧
    (none : Option ℕ) ≠ some 3 := by
  refine ⟨usableSim_neg_example, ?_, by simp⟩
  rw [detectDuplicate_matchingComplaint, bestSim_neg_example,
    if_neg (lt_irrefl 0)]

/-- C9 (amended): the reported similarity is the maximum of 0 and the
usable similarities (entries without an embedding are skipped); the
reported match is the first window entry attaining that maximum — ties
broken by first-seen order, the iteration never reordering the window —
provided the maximum is strictly positive, and `null` otherwise. -/
theorem claim_C9_amended (e : List ℝ) (w : List RecentComplaint) :
    (detectDuplicate e w).similarity = bestSimilarity e w ∧
    (detectDuplicate e w).matchingComplaint =
      (if 0 < bestSimilarity e w then
        (w.find? (fun c => decide (usableSim e c = some (bestSimilarity e w)))).map
          RecentComplaint.id
      else none) :=
  ⟨detectDuplicate_similarity e w, detectDuplicate_matchingComplaint e w⟩

/-- C8: whenever the duplicate detector reports a high-confidence duplicate
(`isDuplicate` with similarity above 0.85), the create-complaint route
responds 409 with the message, the rounded similarity percentage and the
matching complaint, and stores nothing; otherwise it appends exactly one
new record carrying the priority result and responds 201 with it. -/
theorem claim_C8 (req : CreateRequest) (predictedCategory : Option String)
    (dup : DuplicateCheckResult) (pr : PriorityResult) (newId : ℕ)
    (store : List StoredComplaint) :
    (dup.isDuplicate = true ∧ 0.85 < dup.similarity →
      (createComplaint req predictedCategory dup pr newId store).1.status = 409 ∧
      (createComplaint req predictedCategory dup pr newId store).1.message
        = "Potential duplicate complaint detected" ∧
      (createComplaint req predictedCategory dup pr newId store).1.similarity
        = some (jsRoundR (dup.similarity * 100)) ∧
      (createComplaint req predictedCategory dup pr newId store).1.matchingComplaint
        = dup.matchingComplaint ∧
      (createComplaint req predictedCategory dup pr newId store).1.complaint = none ∧
      (createComplaint req predictedCategory dup pr newId store).2 = store) ∧
    (¬ (dup.isDuplicate = true ∧ 0.85 < dup.similarity) →
      ∃ c : StoredComplaint,
        (createComplaint req predictedCategory dup pr newId store).1.status = 201 ∧
        (createComplaint req predictedCategory dup pr newId store).1.complaint = some c ∧
        (createComplaint req predictedCategory dup pr newId store).2 = store ++ [c] ∧
        c.priorityScore = pr.score ∧ c.aiSeverityLevel = pr.severityLevel) := by
  constructor
  · intro hdup
    have hcond : (dup.isDuplicate
        && decide (duplicateThreshold < dup.similarity)) = true := by
      rw [Bool.and_eq_true, decide_eq_true_eq]
      unfold duplicateThreshold
      exact hdup
    unfold createComplaint
    rw [if_pos hcond]
    exact ⟨rfl, rfl, rfl, rfl, rfl, rfl⟩
  · intro hdup
    have hcond : ¬ ((dup.isDuplicate
        && decide (duplicateThreshold < dup.similarity)) = true) := by
      rw [Bool.and_eq_true, decide_eq_true_eq]
      unfold duplicateThreshold
      exact hdup
    unfold createComplaint
    rw [if_neg hcond]
    exact ⟨_, rfl, rfl, rfl, rfl, rfl⟩

/-- C8 witness: the duplicate branch evaluated at a reported duplicate of
similarity 0.9 over an empty store, and the creation branch at a
non-duplicate of similarity 0. -/
theorem claim_C8_witness :
    ((true = true ∧ (0.85 : ℝ) < 0.9) ∧
      (createComplaint ⟨none, "d", "l", none⟩ none ⟨true, 0.9, some 5, some "text"⟩
        ⟨75, ⟨50, 50, 50, 1⟩, "high", "r"⟩ 0 []).1.status = 409 ∧
      (createComplaint ⟨none, "d", "l", none⟩ none ⟨true, 0.9, some 5, some "text"⟩
        ⟨75, ⟨50, 50, 50, 1⟩, "high", "r"⟩ 0 []).2 = ([] : List StoredComplaint)) := by
  have hmain := (claim_C8 ⟨none, "d", "l", none⟩ none ⟨true, 0.9, some 5, some "text"⟩
    ⟨75, ⟨50, 50, 50, 1⟩, "high", "r"⟩ 0 []).1 ⟨rfl, by norm_num⟩
  exact ⟨⟨rfl, by norm_num⟩, hmain.1, hmain.2.2.2.2.2⟩

end Janseva
